import Mathlib

/-!
Verification of the singleton-factory lifecycle and composition layer of the
Template-Python-Base-MCP-Server repository.

The development shallowly embeds the provider layer:

- MCPServerFactory (the protocol-server provider, module src/mcp/app.py),
- WebServerFactory (the HTTP-server provider, module src/web_server/app.py),
- IntegratedServerFactory (the composition provider, module src/integrate/app.py),
- the CLI integrated-mode entry point run_integrated_server (module src/entry.py).

Stateful Python code is embedded as explicit state passing: each operation maps a
SysState to a pair of an Except result (modelling raised AssertionError or
ValueError) and the resulting state.  Python exceptions propagate while leaving
already-performed global mutations in place, which the returned state records.
A ghost event list in the state records the externally observable factory
effects (instance creations, resets, sub-application mounts); it never
influences control flow.
-/

set_option autoImplicit false

/-- MCPTransportType enumeration from src/models/cli.py: members SSE and
HTTP_STREAMING with string values "sse" and "http-streaming". -/
inductive MCPTransportType
  | SSE
  | HTTP_STREAMING
  deriving DecidableEq, Repr

/-- String value of each enum member, as in the Python value attribute. -/
def MCPTransportType.value : MCPTransportType → String
  | MCPTransportType.SSE => "sse"
  | MCPTransportType.HTTP_STREAMING => "http-streaming"

/-- Members of the enumeration in declaration order, matching Python iteration
order over MCPTransportType. -/
def MCPTransportType.members : List MCPTransportType :=
  [MCPTransportType.SSE, MCPTransportType.HTTP_STREAMING]

/-- Value-based lookup MCPTransportType(s) from Python: returns the member whose
value equals s, or nothing when the call would raise ValueError. -/
def MCPTransportType.ofString (s : String) : Option MCPTransportType :=
  if s = "sse" then some MCPTransportType.SSE
  else if s = "http-streaming" then some MCPTransportType.HTTP_STREAMING
  else none

/-- Python exceptions surfaced by the factory layer: AssertionError from the
assert statements and ValueError from transport validation. -/
inductive PyError
  | assertionError (msg : String)
  | valueError (msg : String)
  deriving DecidableEq, Repr

/-- Mountable transport adapter obtained from the protocol-server instance
identified by mcpId: sse_app() or streamable_http_app(). -/
inductive MCPAdapter
  | sse_app (mcpId : Nat)
  | streamable_http_app (mcpId : Nat)
  deriving DecidableEq, Repr

/-- Transport that an adapter serves. -/
def MCPAdapter.transportOf : MCPAdapter → MCPTransportType
  | MCPAdapter.sse_app _ => MCPTransportType.SSE
  | MCPAdapter.streamable_http_app _ => MCPTransportType.HTTP_STREAMING

/-- Lifecycle hook returned by MCPServerFactory.lifespan(), bound to the
protocol-server instance identified by mcpId. -/
inductive LifespanHook
  | mcpLifespan (mcpId : Nat)
  deriving DecidableEq, Repr

/-- Cross-origin middleware configuration attached by WebServerFactory.create,
copied from the settings collaborator (src/config.py fields). -/
structure CORSConfig where
  allow_origins : List String
  allow_credentials : Bool
  allow_methods : List String
  allow_headers : List String
  deriving DecidableEq, Repr

/-- Read-only slice of the Settings collaborator (src/config.py) consumed by the
factory layer and the entry point. -/
structure TSettings where
  api_token : Option String := none
  cors_allow_origins : List String := ["*"]
  cors_allow_credentials : Bool := true
  cors_allow_methods : List String := ["*"]
  cors_allow_headers : List String := ["*"]
  deriving DecidableEq, Repr

/-- Settings.get_api_token from src/config.py: unwraps the stored secret token
value, or returns nothing when no token is configured. -/
def TSettings.get_api_token (st : TSettings) : Option String :=
  st.api_token

/-- Handler registered on a route of the web application.  The only route the
factory registers is the health check. -/
inductive RouteHandler
  | health_check
  deriving DecidableEq, Repr

/-- Ghost record of externally observable factory effects. -/
inductive FactoryEvent
  | mcpCreated (mcpId : Nat)
  | mcpResetDone
  | webCreated (appId : Nat)
  | webResetDone
  | mounted (path : String) (adapter : MCPAdapter)
  deriving DecidableEq, Repr

/-- Predicate selecting mount events. -/
def FactoryEvent.isMount : FactoryEvent → Bool
  | FactoryEvent.mounted _ _ => true
  | _ => false

/-- Number of mount operations recorded in an event list. -/
def countMounts (evs : List FactoryEvent) : Nat :=
  (evs.filter FactoryEvent.isMount).length

/-- FastAPI application object built by WebServerFactory.create.  The appId is
the object identity; mounts records the sub-applications registered on the
object by app.mount, in call order. -/
structure WebApp where
  appId : Nat
  title : String
  lifespan : LifespanHook
  cors : CORSConfig
  routes : List (String × RouteHandler)
  mounts : List (String × MCPAdapter)
  deriving DecidableEq, Repr

/-- Result of app.mount(path, adapter): the same object (appId unchanged) with
one more sub-route registered. -/
def WebApp.mount (app : WebApp) (path : String) (adapter : MCPAdapter) : WebApp :=
  { app with mounts := app.mounts ++ [(path, adapter)] }

/-- Process-wide state of the factory layer: the allocation counter for fresh
object identities, the read-only settings collaborator, the three module-level
instance slots (_MCP_SERVER_INSTANCE, _WEB_SERVER_INSTANCE and
_INTEGRATED_SERVER_INSTANCE, the last held by object identity since it aliases
the web application object), and the ghost event list. -/
structure SysState where
  nextId : Nat
  settings : TSettings
  mcpServerInstance : Option Nat
  webServerInstance : Option WebApp
  integratedServerInstance : Option Nat
  events : List FactoryEvent
  deriving DecidableEq, Repr

/-- Modelled from the spec: src/mcp/app.py is absent from the source tree (only
its callers and unit tests are present).  ProtocolServerProvider.create per
spec section 4.1 fails with a precondition error when the slot is non-empty,
otherwise stores and returns a new instance; the message wording follows the
unit test test_create_singleton in test/unit_test/mcp/test_factory.py. -/
def MCPServerFactory.create (s : SysState) : Except PyError Nat × SysState :=
  match s.mcpServerInstance with
  | some _ =>
      (Except.error (PyError.assertionError
        "It is not allowed to create more than one instance of FastMCP."), s)
  | none =>
      let mcpId := s.nextId
      (Except.ok mcpId,
        { s with
            nextId := s.nextId + 1
            mcpServerInstance := some mcpId
            events := s.events ++ [FactoryEvent.mcpCreated mcpId] })

/-- Modelled from the spec: ProtocolServerProvider.get per spec section 4.1
fails with a precondition error when the slot is empty, otherwise returns the
stored instance unmodified; the message wording follows the unit test
test_get_without_create in test/unit_test/mcp/test_factory.py. -/
def MCPServerFactory.get (s : SysState) : Except PyError Nat × SysState :=
  match s.mcpServerInstance with
  | none =>
      (Except.error (PyError.assertionError "It must be created FastMCP first."), s)
  | some mcpId => (Except.ok mcpId, s)

/-- Modelled from the spec: ProtocolServerProvider.reset per spec section 4.1
unconditionally empties the slot. -/
def MCPServerFactory.reset (s : SysState) : SysState :=
  { s with
      mcpServerInstance := none
      events := s.events ++ [FactoryEvent.mcpResetDone] }

/-- Modelled from the spec: ProtocolServerProvider.lifespan per spec section 4.1
fails with a precondition error when the slot is empty (create must be called
first), otherwise returns the startup and shutdown hook bound to the stored
instance; the message wording follows the unit test test_lifespan_without_create
in test/unit_test/mcp/test_factory.py. -/
def MCPServerFactory.lifespan (s : SysState) : Except PyError LifespanHook × SysState :=
  match s.mcpServerInstance with
  | none =>
      (Except.error (PyError.assertionError "Please create a FastMCP instance first."), s)
  | some mcpId => (Except.ok (LifespanHook.mcpLifespan mcpId), s)

/-- WebServerFactory.create from src/web_server/app.py: asserts that the slot is
empty, then builds the FastAPI application with the lifecycle hook obtained by
calling MCPServerFactory.lifespan unconditionally (an AssertionError raised by
lifespan propagates and nothing is stored), configures cross-origin middleware
from the settings collaborator, registers the health check route, stores the
application in the slot and returns it. -/
def WebServerFactory.create (s : SysState) : Except PyError WebApp × SysState :=
  match s.webServerInstance with
  | some _ =>
      (Except.error (PyError.assertionError
        "It is not allowed to create more than one instance of web server."), s)
  | none =>
      match MCPServerFactory.lifespan s with
      | (Except.error e, s1) => (Except.error e, s1)
      | (Except.ok hook, s1) =>
          let st := s1.settings
          let app : WebApp :=
            { appId := s1.nextId
              title := "Template MCP Server"
              lifespan := hook
              cors :=
                { allow_origins := st.cors_allow_origins
                  allow_credentials := st.cors_allow_credentials
                  allow_methods := st.cors_allow_methods
                  allow_headers := st.cors_allow_headers }
              routes := [("/health", RouteHandler.health_check)]
              mounts := [] }
          (Except.ok app,
            { s1 with
                nextId := s1.nextId + 1
                webServerInstance := some app
                events := s1.events ++ [FactoryEvent.webCreated app.appId] })

/-- WebServerFactory.get from src/web_server/app.py: asserts that the slot is
non-empty and returns the stored application unmodified. -/
def WebServerFactory.get (s : SysState) : Except PyError WebApp × SysState :=
  match s.webServerInstance with
  | none =>
      (Except.error (PyError.assertionError "It must be created web server first."), s)
  | some app => (Except.ok app, s)

/-- WebServerFactory.reset from src/web_server/app.py: unconditionally sets the
slot back to empty. -/
def WebServerFactory.reset (s : SysState) : SysState :=
  { s with
      webServerInstance := none
      events := s.events ++ [FactoryEvent.webResetDone] }

/-- Health check response DTO from src/web_server/models/response/health_check.py:
status defaults to "healthy" (the field is constrained to "healthy" or
"unhealthy"); all remaining fields are nullable and default to absent. -/
structure HealthyCheckResponseDto where
  status : String := "healthy"
  timestamp : Option String := none
  version : Option String := none
  uptime_seconds : Option Float := none
  checks : Option (List (String × Bool)) := none

/-- Health check handler registered by WebServerFactory.create: returns the DTO
constructed with status "healthy" and touches no global state, so the state
passes through unchanged. -/
def health_check (s : SysState) : HealthyCheckResponseDto × SysState :=
  ({ status := "healthy" }, s)

/-- Dispatch of a handler on a request: FastAPI wraps the returned model in a
response with the default status code 200 for a route declared without an
explicit status code. -/
def runHandler : RouteHandler → SysState → (Nat × HealthyCheckResponseDto) × SysState
  | RouteHandler.health_check, s =>
      let r := health_check s
      ((200, r.1), r.2)

/-- GET dispatch on the web application: finds the registered route for the
request path and runs its handler; unknown paths produce no handler response. -/
def WebApp.handleGet (app : WebApp) (path : String) (s : SysState) :
    Option ((Nat × HealthyCheckResponseDto) × SysState) :=
  match app.routes.find? (fun r => r.1 == path) with
  | some r => some (runHandler r.2 s)
  | none => none

/-- Default mount paths per transport type, the table _DEFAULT_MOUNT_PATHS at the
top of src/integrate/app.py. -/
def _DEFAULT_MOUNT_PATHS : MCPTransportType → String
  | MCPTransportType.SSE => "/sse"
  | MCPTransportType.HTTP_STREAMING => "/mcp"

/-- Transport argument as received by IntegratedServerFactory.create: either a
raw string or an enum member, mirroring the union type str | MCPTransportType. -/
inductive TransportArg
  | ofString (s : String)
  | ofEnum (t : MCPTransportType)
  deriving DecidableEq, Repr

/-- Keyword arguments of IntegratedServerFactory.create with the defaults that
kwargs.get supplies in src/integrate/app.py lines 163 to 166: transport defaults
to MCPTransportType.SSE, mount path to None and retry to 3. -/
structure IntegratedServerKwargs where
  token : Option String := none
  mcp_transport : TransportArg := TransportArg.ofEnum MCPTransportType.SSE
  mcp_mount_path : Option String := none
  retry : Int := 3
  deriving DecidableEq, Repr

/-- Comma-space join of the enum member values, as the join expression inside
the error message of src/integrate/app.py builds it. -/
def validTransportValues : String :=
  String.intercalate ", " (MCPTransportType.members.map MCPTransportType.value)

/-- Validation error message of src/integrate/app.py naming the offending value
and listing the valid values. -/
def invalidTransportMsg (shown : String) : String :=
  "Invalid transport type for integrated server: " ++ shown ++
    ". Must be one of: " ++ validTransportValues

/-- Transport normalization step of IntegratedServerFactory.create, lines 168 to
179 of src/integrate/app.py: a string is mapped through the enum value lookup
and an unmappable string raises ValueError; an enum member passes through. -/
def normalizeTransport : TransportArg → Except PyError MCPTransportType
  | TransportArg.ofString str =>
      match MCPTransportType.ofString str with
      | some t => Except.ok t
      | none => Except.error (PyError.valueError (invalidTransportMsg str))
  | TransportArg.ofEnum t => Except.ok t

/-- Mount path resolution step of IntegratedServerFactory.create, lines 181 to
183 of src/integrate/app.py: the caller-supplied override when present,
otherwise the default table entry for the transport. -/
def resolveMountPath (override : Option String) (t : MCPTransportType) : String :=
  match override with
  | none => _DEFAULT_MOUNT_PATHS t
  | some p => p

/-- Dependency ensure step for the protocol server, lines 185 to 189 of
src/integrate/app.py: try MCPServerFactory.get and on AssertionError fall back
to MCPServerFactory.create; an error raised by the fallback propagates. -/
def ensureMCP (s : SysState) : Except PyError Unit × SysState :=
  match MCPServerFactory.get s with
  | (Except.ok _, s1) => (Except.ok (), s1)
  | (Except.error (PyError.assertionError _), s1) =>
      match MCPServerFactory.create s1 with
      | (Except.ok _, s2) => (Except.ok (), s2)
      | (Except.error e, s2) => (Except.error e, s2)
  | (Except.error e, s1) => (Except.error e, s1)

/-- Dependency ensure step for the web server, lines 191 to 195 of
src/integrate/app.py: try WebServerFactory.get and on AssertionError fall back
to WebServerFactory.create; an error raised by the fallback propagates. -/
def ensureWeb (s : SysState) : Except PyError WebApp × SysState :=
  match WebServerFactory.get s with
  | (Except.ok app, s1) => (Except.ok app, s1)
  | (Except.error (PyError.assertionError _), s1) =>
      match WebServerFactory.create s1 with
      | (Except.ok app, s2) => (Except.ok app, s2)
      | (Except.error e, s2) => (Except.error e, s2)
  | (Except.error e, s1) => (Except.error e, s1)

/-- Single mount call app.mount(path, adapter) as issued by the composition
provider: the web application object is mutated in place, so the local reference
and the singleton slot both observe the new sub-route; the ghost event list
records the mount. -/
def performMount (app : WebApp) (path : String) (adapter : MCPAdapter) (s : SysState) :
    Except PyError WebApp × SysState :=
  let app2 := WebApp.mount app path adapter
  (Except.ok app2,
    { s with
        webServerInstance := some app2
        events := s.events ++ [FactoryEvent.mounted path adapter] })

/-- Branch dispatch of IntegratedServerFactory.create, lines 197 to 209 of
src/integrate/app.py: the SSE branch mounts the adapter from
mcp_factory.get().sse_app(), the HTTP streaming branch mounts the adapter from
mcp_factory.get().streamable_http_app(), and the trailing else raises ValueError
(the enum rendering in that message is immaterial because the branch cannot be
reached once the transport is an enum member). -/
def mountDispatch (t : MCPTransportType) (app : WebApp) (path : String) (s : SysState) :
    Except PyError WebApp × SysState :=
  if t = MCPTransportType.SSE then
    match MCPServerFactory.get s with
    | (Except.error e, s1) => (Except.error e, s1)
    | (Except.ok mcpId, s1) => performMount app path (MCPAdapter.sse_app mcpId) s1
  else if t = MCPTransportType.HTTP_STREAMING then
    match MCPServerFactory.get s with
    | (Except.error e, s1) => (Except.error e, s1)
    | (Except.ok mcpId, s1) => performMount app path (MCPAdapter.streamable_http_app mcpId) s1
  else
    (Except.error (PyError.valueError (invalidTransportMsg t.value)), s)

/-- IntegratedServerFactory.create from src/integrate/app.py: reads the keyword
arguments (token and retry are read but drive no behaviour), normalizes the
transport, resolves the mount path, ensures both sub-provider instances exist,
performs the mount dispatch and finally stores the composed object in the
integrated slot before returning it. -/
def IntegratedServerFactory.create (kwargs : IntegratedServerKwargs) (s : SysState) :
    Except PyError WebApp × SysState :=
  let _token := kwargs.token
  let _retry := kwargs.retry
  match normalizeTransport kwargs.mcp_transport with
  | Except.error e => (Except.error e, s)
  | Except.ok mcp_transport =>
      let mcp_mount_path := resolveMountPath kwargs.mcp_mount_path mcp_transport
      match ensureMCP s with
      | (Except.error e, s1) => (Except.error e, s1)
      | (Except.ok _, s1) =>
          match ensureWeb s1 with
          | (Except.error e, s2) => (Except.error e, s2)
          | (Except.ok app, s2) =>
              match mountDispatch mcp_transport app mcp_mount_path s2 with
              | (Except.error e, s3) => (Except.error e, s3)
              | (Except.ok app2, s3) =>
                  (Except.ok app2,
                    { s3 with integratedServerInstance := some app2.appId })

/-- IntegratedServerFactory.get from src/integrate/app.py: asserts that the
integrated slot is non-empty and returns the stored object identity. -/
def IntegratedServerFactory.get (s : SysState) : Except PyError Nat × SysState :=
  match s.integratedServerInstance with
  | none =>
      (Except.error (PyError.assertionError "Integrated server must be created first."), s)
  | some appId => (Except.ok appId, s)

/-- IntegratedServerFactory.reset from src/integrate/app.py: unconditionally
clears the integrated slot, then resets the MCP factory and the web factory in
that order. -/
def IntegratedServerFactory.reset (s : SysState) : SysState :=
  WebServerFactory.reset
    (MCPServerFactory.reset { s with integratedServerInstance := none })

/-- ServerConfig from src/models/cli.py restricted to the fields the integrated
entry point reads; the transport field holds a validated enum member (the model
stores its string value, which round-trips through the value lookup). -/
structure ServerConfig where
  host : String := "0.0.0.0"
  port : Nat := 8000
  log_level : String := "info"
  reload : Bool := false
  env_file : Option String := some ".env"
  token : Option String := none
  transport : MCPTransportType := MCPTransportType.SSE
  deriving DecidableEq, Repr

/-- CLI integrated-mode entry point run_integrated_server from src/entry.py.
Environment and settings loading performs file and environment input and is
modelled by the settingsResult parameter: none models a configuration load
failure, upon which the function returns without creating anything.  Otherwise
the composition provider is invoked with the token from settings, the transport
from the configuration passed in its string form (the config model stores enum
values), and the fixed mount path "/mcp"; a ValueError from the composition
provider is logged and the startup path aborts; on success the server is handed
to uvicorn, which is outside this layer. -/
def run_integrated_server (settingsResult : Option TSettings) (config : ServerConfig)
    (s : SysState) : Except PyError Unit × SysState :=
  match settingsResult with
  | none => (Except.ok (), s)
  | some st =>
      let r := IntegratedServerFactory.create
        { token := st.get_api_token
          mcp_transport := TransportArg.ofString config.transport.value
          mcp_mount_path := some "/mcp" } s
      match r.1 with
      | Except.ok _ => (Except.ok (), r.2)
      | Except.error (PyError.valueError _) => (Except.ok (), r.2)
      | Except.error e => (Except.error e, r.2)

/-- Initial empty process state with default settings. -/
def initState : SysState :=
  { nextId := 0
    settings := {}
    mcpServerInstance := none
    webServerInstance := none
    integratedServerInstance := none
    events := [] }

/-- State after one successful MCPServerFactory.create from the initial state. -/
def stateWithMCP : SysState :=
  (MCPServerFactory.create initState).2

/-- State after MCPServerFactory.create followed by WebServerFactory.create. -/
def stateWithBoth : SysState :=
  (WebServerFactory.create stateWithMCP).2

/-- Concrete web application stored in stateWithBoth. -/
def webApp1 : WebApp :=
  (stateWithBoth.webServerInstance).getD
    { appId := 0
      title := ""
      lifespan := LifespanHook.mcpLifespan 0
      cors := { allow_origins := [], allow_credentials := false,
                allow_methods := [], allow_headers := [] }
      routes := []
      mounts := [] }

/-- Adapter that the composition provider mounts for a transport, given the
protocol-server instance identity. -/
def adapterFor : MCPTransportType → Nat → MCPAdapter
  | MCPTransportType.SSE, m => MCPAdapter.sse_app m
  | MCPTransportType.HTTP_STREAMING, m => MCPAdapter.streamable_http_app m

/-- Identity of the protocol-server instance that the dependency ensure step of
the composition provider ends up with: the already stored instance when the
slot is non-empty, otherwise the freshly allocated one. -/
def mcpIdAfterEnsure (s : SysState) : Nat :=
  match s.mcpServerInstance with
  | some m => m
  | none => s.nextId

/-- Round trip of the value lookup on enum members. -/
theorem ofString_value (t : MCPTransportType) :
    MCPTransportType.ofString t.value = some t := by
  cases t <;> rfl

/-- Adapter chosen for a transport serves that transport. -/
theorem transportOf_adapterFor (t : MCPTransportType) (m : Nat) :
    MCPAdapter.transportOf (adapterFor t m) = t := by
  cases t <;> rfl

/-- Characterization of IntegratedServerFactory.create once the transport
normalizes: from every state the call succeeds, stores the mounted application
in both the web slot and (by identity) the integrated slot, and appends exactly
one mount event, whose path is the resolved mount path and whose adapter serves
the selected transport on the ensured protocol instance. -/
theorem create_normalized_ok (kwargs : IntegratedServerKwargs) (t : MCPTransportType)
    (s : SysState) (h : normalizeTransport kwargs.mcp_transport = Except.ok t) :
    ∃ app : WebApp,
      (IntegratedServerFactory.create kwargs s).1 = Except.ok app ∧
      (IntegratedServerFactory.create kwargs s).2.webServerInstance = some app ∧
      (IntegratedServerFactory.create kwargs s).2.integratedServerInstance = some app.appId ∧
      app.mounts.getLast? =
        some (resolveMountPath kwargs.mcp_mount_path t, adapterFor t (mcpIdAfterEnsure s)) ∧
      (IntegratedServerFactory.create kwargs s).2.events.getLast? =
        some (FactoryEvent.mounted (resolveMountPath kwargs.mcp_mount_path t)
          (adapterFor t (mcpIdAfterEnsure s))) ∧
      countMounts (IntegratedServerFactory.create kwargs s).2.events =
        countMounts s.events + 1 := by
  obtain ⟨nid, st, mcp, web, intg, ev⟩ := s
  cases t <;> cases mcp <;> cases web <;>
    simp [IntegratedServerFactory.create, h, ensureMCP, ensureWeb,
      MCPServerFactory.get, MCPServerFactory.create, MCPServerFactory.lifespan,
      WebServerFactory.get, WebServerFactory.create,
      mountDispatch, performMount, WebApp.mount, adapterFor, mcpIdAfterEnsure,
      countMounts, List.filter_append, FactoryEvent.isMount,
      List.getLast?_concat]

/-- Claim C1 counterexample: from the initial state, in which the
protocol-server slot is empty, WebServerFactory.create does not succeed; it
fails with the lifespan precondition error, contrary to the claim that a no-op
lifecycle hook is installed and the lifespan precondition error cannot occur. -/
theorem c1_counterexample :
    (WebServerFactory.create initState).1 =
      Except.error (PyError.assertionError "Please create a FastMCP instance first.") := by
  rfl

/-- Claim C1 (amended): WebServerFactory.create obtains the lifecycle hook from
MCPServerFactory.lifespan unconditionally; when the protocol slot is empty the
call fails with the lifespan precondition error and stores nothing (there is no
no-op hook fallback), and when a protocol instance exists the call succeeds
with the hook bound to that instance. -/
theorem c1_lifespan_requires_protocol (s : SysState) (hw : s.webServerInstance = none) :
    (s.mcpServerInstance = none →
      WebServerFactory.create s =
        (Except.error (PyError.assertionError "Please create a FastMCP instance first."), s)) ∧
    (∀ m : Nat, s.mcpServerInstance = some m →
      ∃ app s1, WebServerFactory.create s = (Except.ok app, s1) ∧
        app.lifespan = LifespanHook.mcpLifespan m ∧
        s1.webServerInstance = some app) := by
  constructor
  · intro hm
    simp [WebServerFactory.create, MCPServerFactory.lifespan, hw, hm]
  · intro m hm
    simp [WebServerFactory.create, MCPServerFactory.lifespan, hw, hm]
    exact ⟨_, _, ⟨rfl, rfl⟩, rfl, rfl⟩

/-- Claim C1 witness: both branches of the amended statement at concrete
states, the initial state and the state holding only a protocol instance. -/
theorem c1_witness :
    (initState.webServerInstance = none ∧ initState.mcpServerInstance = none ∧
      WebServerFactory.create initState =
        (Except.error (PyError.assertionError "Please create a FastMCP instance first."),
          initState)) ∧
    (stateWithMCP.webServerInstance = none ∧ stateWithMCP.mcpServerInstance = some 0 ∧
      ∃ app s1, WebServerFactory.create stateWithMCP = (Except.ok app, s1) ∧
        app.lifespan = LifespanHook.mcpLifespan 0 ∧
        s1.webServerInstance = some app) :=
  ⟨⟨rfl, rfl, (c1_lifespan_requires_protocol initState rfl).1 rfl⟩,
   ⟨rfl, rfl, (c1_lifespan_requires_protocol stateWithMCP rfl).2 0 rfl⟩⟩

/-- Claim C5 counterexample: at the initial state the web-server provider slot
is Empty, yet create does not store a new instance and move to Created; it
fails with the protocol lifespan precondition error and the slot stays empty,
contradicting the unguarded Empty-create-Created transition of the claim. -/
theorem c5_counterexample :
    initState.webServerInstance = none ∧
    (WebServerFactory.create initState).1 =
      Except.error (PyError.assertionError "Please create a FastMCP instance first.") ∧
    (WebServerFactory.create initState).2.webServerInstance = none :=
  ⟨rfl, rfl, rfl⟩

/-- Claim C5 (amended): the web-server provider satisfies the two-state machine
with the Empty-create transition guarded by the protocol provider: create on
Empty succeeds and moves to Created when a protocol instance exists, and fails
with the lifespan precondition error with no transition when it does not;
create on Created fails with the already-created assertion, causes no
transition, and a subsequent get still returns the first instance unmodified;
get on Empty fails with the provider-specific precondition message; get on
Created returns the stored instance without modifying it; reset yields Empty
from either state and changes no other slot. -/
theorem c5_state_machine (s : SysState) :
    (∀ m : Nat, s.webServerInstance = none → s.mcpServerInstance = some m →
      ∃ app s1, WebServerFactory.create s = (Except.ok app, s1) ∧
        s1.webServerInstance = some app) ∧
    (s.webServerInstance = none → s.mcpServerInstance = none →
      WebServerFactory.create s =
        (Except.error (PyError.assertionError "Please create a FastMCP instance first."), s)) ∧
    (∀ a : WebApp, s.webServerInstance = some a →
      WebServerFactory.create s =
        (Except.error (PyError.assertionError
          "It is not allowed to create more than one instance of web server."), s) ∧
      WebServerFactory.get ((WebServerFactory.create s).2) = (Except.ok a, s)) ∧
    (s.webServerInstance = none →
      WebServerFactory.get s =
        (Except.error (PyError.assertionError "It must be created web server first."), s)) ∧
    (∀ a : WebApp, s.webServerInstance = some a →
      WebServerFactory.get s = (Except.ok a, s)) ∧
    ((WebServerFactory.reset s).webServerInstance = none ∧
      (WebServerFactory.reset s).mcpServerInstance = s.mcpServerInstance ∧
      (WebServerFactory.reset s).integratedServerInstance = s.integratedServerInstance ∧
      (WebServerFactory.reset s).nextId = s.nextId) := by
  refine ⟨?_, ?_, ?_, ?_, ?_, rfl, rfl, rfl, rfl⟩
  · intro m hw hm
    simp [WebServerFactory.create, MCPServerFactory.lifespan, hw, hm]
    exact ⟨_, _, ⟨rfl, rfl⟩, rfl⟩
  · intro hw hm
    simp [WebServerFactory.create, MCPServerFactory.lifespan, hw, hm]
  · intro a hw
    refine ⟨?_, ?_⟩ <;>
      simp [WebServerFactory.create, WebServerFactory.get, hw]
  · intro hw
    simp [WebServerFactory.get, hw]
  · intro a hw
    simp [WebServerFactory.get, hw]

/-- Claim C5 witness: each guarded transition of the amended state machine at a
concrete state. -/
theorem c5_witness :
    (stateWithMCP.webServerInstance = none ∧ stateWithMCP.mcpServerInstance = some 0 ∧
      ∃ app s1, WebServerFactory.create stateWithMCP = (Except.ok app, s1) ∧
        s1.webServerInstance = some app) ∧
    (initState.webServerInstance = none ∧ initState.mcpServerInstance = none ∧
      WebServerFactory.create initState =
        (Except.error (PyError.assertionError "Please create a FastMCP instance first."),
          initState)) ∧
    (stateWithBoth.webServerInstance = some webApp1 ∧
      WebServerFactory.create stateWithBoth =
        (Except.error (PyError.assertionError
          "It is not allowed to create more than one instance of web server."), stateWithBoth) ∧
      WebServerFactory.get ((WebServerFactory.create stateWithBoth).2) =
        (Except.ok webApp1, stateWithBoth)) ∧
    (initState.webServerInstance = none ∧
      WebServerFactory.get initState =
        (Except.error (PyError.assertionError "It must be created web server first."),
          initState)) ∧
    (WebServerFactory.get stateWithBoth = (Except.ok webApp1, stateWithBoth)) ∧
    ((WebServerFactory.reset stateWithBoth).webServerInstance = none) :=
  ⟨⟨rfl, rfl, (c5_state_machine stateWithMCP).1 0 rfl rfl⟩,
   ⟨rfl, rfl, (c5_state_machine initState).2.1 rfl rfl⟩,
   ⟨rfl, (c5_state_machine stateWithBoth).2.2.1 webApp1 rfl⟩,
   ⟨rfl, (c5_state_machine initState).2.2.2.1 rfl⟩,
   (c5_state_machine stateWithBoth).2.2.2.2.1 webApp1 rfl,
   (c5_state_machine stateWithBoth).2.2.2.2.2.1⟩

/-- Claim C6: IntegratedServerFactory.reset empties the composed slot and
cascades reset to both sub-providers from every state, so that afterwards all
three instance slots are empty; the event list records that both sub-provider
resets were invoked. -/
theorem c6_cascading_reset (s : SysState) :
    (IntegratedServerFactory.reset s).integratedServerInstance = none ∧
    (IntegratedServerFactory.reset s).mcpServerInstance = none ∧
    (IntegratedServerFactory.reset s).webServerInstance = none ∧
    (IntegratedServerFactory.reset s).events =
      s.events ++ [FactoryEvent.mcpResetDone, FactoryEvent.webResetDone] := by
  refine ⟨rfl, rfl, rfl, ?_⟩
  simp [IntegratedServerFactory.reset, MCPServerFactory.reset, WebServerFactory.reset]

/-- Claim C7: the retry keyword argument of IntegratedServerFactory.create is
accepted but never influences the result or the final state: two calls that
differ only in retry coincide. -/
theorem c7_retry_unused (kwargs : IntegratedServerKwargs) (r1 r2 : Int) (s : SysState) :
    IntegratedServerFactory.create { kwargs with retry := r1 } s =
      IntegratedServerFactory.create { kwargs with retry := r2 } s := rfl

/-- Claim C2: when both sub-provider slots are already non-empty,
IntegratedServerFactory.create with a transport that normalizes reuses both
existing instances without invoking either sub-create (the only recorded effect
is a single mount event and no fresh identity is allocated), performs exactly
one mount of the selected adapter onto the very same application object
(identity preserved), caches that object and returns it; a second create call
without an intervening reset mounts a second sub-route onto the same object. -/
theorem c2_idempotent_reuse (kwargs : IntegratedServerKwargs) (t : MCPTransportType)
    (s : SysState) (m : Nat) (a : WebApp)
    (hm : s.mcpServerInstance = some m) (hw : s.webServerInstance = some a)
    (hn : normalizeTransport kwargs.mcp_transport = Except.ok t) :
    ∃ app1 s1,
      IntegratedServerFactory.create kwargs s = (Except.ok app1, s1) ∧
      app1 = WebApp.mount a (resolveMountPath kwargs.mcp_mount_path t) (adapterFor t m) ∧
      app1.appId = a.appId ∧
      app1.mounts = a.mounts ++
        [(resolveMountPath kwargs.mcp_mount_path t, adapterFor t m)] ∧
      s1.webServerInstance = some app1 ∧
      s1.integratedServerInstance = some a.appId ∧
      s1.mcpServerInstance = some m ∧
      s1.nextId = s.nextId ∧
      s1.events = s.events ++
        [FactoryEvent.mounted (resolveMountPath kwargs.mcp_mount_path t) (adapterFor t m)] ∧
      ∃ app2 s2,
        IntegratedServerFactory.create kwargs s1 = (Except.ok app2, s2) ∧
        app2.appId = a.appId ∧
        app2.mounts = a.mounts ++
          [(resolveMountPath kwargs.mcp_mount_path t, adapterFor t m),
           (resolveMountPath kwargs.mcp_mount_path t, adapterFor t m)] ∧
        s2.webServerInstance = some app2 := by
  cases t <;>
    (simp [IntegratedServerFactory.create, hn, ensureMCP, ensureWeb,
       MCPServerFactory.get, WebServerFactory.get, hm, hw,
       mountDispatch, performMount, WebApp.mount, adapterFor];
     refine ⟨_, _, ⟨rfl, rfl⟩, rfl, rfl, rfl, rfl, rfl, rfl, rfl, rfl, ?_⟩;
     simp [IntegratedServerFactory.create, hn, ensureMCP, ensureWeb,
       MCPServerFactory.get, WebServerFactory.get,
       mountDispatch, performMount, WebApp.mount, adapterFor];
     exact ⟨_, _, ⟨rfl, rfl⟩, rfl, by simp, rfl⟩)

/-- Claim C2 witness: the reuse and double-mount behaviour at the concrete
state holding a protocol instance and a web application, with default keyword
arguments (SSE transport, no mount-path override). -/
theorem c2_witness :
    stateWithBoth.mcpServerInstance = some 0 ∧
    stateWithBoth.webServerInstance = some webApp1 ∧
    normalizeTransport ({} : IntegratedServerKwargs).mcp_transport =
      Except.ok MCPTransportType.SSE ∧
    ∃ app1 s1,
      IntegratedServerFactory.create {} stateWithBoth = (Except.ok app1, s1) ∧
      app1 = WebApp.mount webApp1 "/sse" (MCPAdapter.sse_app 0) ∧
      app1.appId = webApp1.appId ∧
      app1.mounts = webApp1.mounts ++ [("/sse", MCPAdapter.sse_app 0)] ∧
      s1.webServerInstance = some app1 ∧
      s1.integratedServerInstance = some webApp1.appId ∧
      s1.mcpServerInstance = some 0 ∧
      s1.nextId = stateWithBoth.nextId ∧
      s1.events = stateWithBoth.events ++
        [FactoryEvent.mounted "/sse" (MCPAdapter.sse_app 0)] ∧
      ∃ app2 s2,
        IntegratedServerFactory.create {} s1 = (Except.ok app2, s2) ∧
        app2.appId = webApp1.appId ∧
        app2.mounts = webApp1.mounts ++
          [("/sse", MCPAdapter.sse_app 0), ("/sse", MCPAdapter.sse_app 0)] ∧
        s2.webServerInstance = some app2 :=
  ⟨rfl, rfl, rfl,
    c2_idempotent_reuse {} MCPTransportType.SSE stateWithBoth 0 webApp1 rfl rfl rfl⟩

/-- Claim C3: mount-path resolution of the composition provider.  The transport
argument defaults to SSE when omitted; with no override the default table maps
SSE to "/sse" and HTTP streaming to "/mcp"; a supplied override is used
verbatim regardless of transport; and every create call whose transport
normalizes mounts exactly at the resolved path. -/
theorem c3_transport_to_path :
    ({} : IntegratedServerKwargs).mcp_transport = TransportArg.ofEnum MCPTransportType.SSE ∧
    resolveMountPath none MCPTransportType.SSE = "/sse" ∧
    resolveMountPath none MCPTransportType.HTTP_STREAMING = "/mcp" ∧
    (∀ (p : String) (t : MCPTransportType), resolveMountPath (some p) t = p) ∧
    ∀ (kwargs : IntegratedServerKwargs) (t : MCPTransportType) (s : SysState),
      normalizeTransport kwargs.mcp_transport = Except.ok t →
      ∃ app : WebApp,
        (IntegratedServerFactory.create kwargs s).1 = Except.ok app ∧
        app.mounts.getLast? =
          some (resolveMountPath kwargs.mcp_mount_path t,
            adapterFor t (mcpIdAfterEnsure s)) := by
  refine ⟨rfl, rfl, rfl, fun p t => rfl, ?_⟩
  intro kwargs t s h
  obtain ⟨app, h1, _, _, h4, _, _⟩ := create_normalized_ok kwargs t s h
  exact ⟨app, h1, h4⟩

/-- Claim C3 witness: the quantified part of the statement at the initial state
with default keyword arguments, resolving to the "/sse" default, and at a state
with an explicit override and HTTP streaming transport, resolving verbatim. -/
theorem c3_witness :
    (normalizeTransport ({} : IntegratedServerKwargs).mcp_transport =
        Except.ok MCPTransportType.SSE ∧
      ∃ app : WebApp,
        (IntegratedServerFactory.create {} initState).1 = Except.ok app ∧
        app.mounts.getLast? = some ("/sse", MCPAdapter.sse_app 0)) ∧
    (normalizeTransport (TransportArg.ofString "http-streaming") =
        Except.ok MCPTransportType.HTTP_STREAMING ∧
      ∃ app : WebApp,
        (IntegratedServerFactory.create
          { mcp_transport := TransportArg.ofString "http-streaming"
            mcp_mount_path := some "/custom" } initState).1 = Except.ok app ∧
        app.mounts.getLast? = some ("/custom", MCPAdapter.streamable_http_app 0)) :=
  ⟨⟨rfl, c3_transport_to_path.2.2.2.2 {} MCPTransportType.SSE initState rfl⟩,
   ⟨by simp [normalizeTransport, MCPTransportType.ofString],
    c3_transport_to_path.2.2.2.2
      { mcp_transport := TransportArg.ofString "http-streaming"
        mcp_mount_path := some "/custom" } MCPTransportType.HTTP_STREAMING initState
      (by simp [normalizeTransport, MCPTransportType.ofString])⟩⟩

/-- Claim C4: an unmappable transport string makes
IntegratedServerFactory.create raise ValueError before the dependency ensure
steps run: the message names the offending string and lists the valid values,
and the state, including all three instance slots and the event list, is left
exactly as it was (no mount, no instance creation). -/
theorem c4_invalid_transport (str : String) (kwargs : IntegratedServerKwargs) (s : SysState)
    (hstr : MCPTransportType.ofString str = none)
    (hk : kwargs.mcp_transport = TransportArg.ofString str) :
    IntegratedServerFactory.create kwargs s =
      (Except.error (PyError.valueError (invalidTransportMsg str)), s) ∧
    invalidTransportMsg str =
      "Invalid transport type for integrated server: " ++ str ++
        ". Must be one of: " ++ "sse, http-streaming" := by
  constructor
  · simp [IntegratedServerFactory.create, normalizeTransport, hk, hstr]
  · have h2 : validTransportValues = "sse, http-streaming" := by decide
    simp [invalidTransportMsg, h2]

/-- Claim C4 witness: the rejection at the concrete string
"not-a-real-transport" from the initial state. -/
theorem c4_witness :
    MCPTransportType.ofString "not-a-real-transport" = none ∧
    IntegratedServerFactory.create
        { mcp_transport := TransportArg.ofString "not-a-real-transport" } initState =
      (Except.error (PyError.valueError (invalidTransportMsg "not-a-real-transport")),
        initState) ∧
    invalidTransportMsg "not-a-real-transport" =
      "Invalid transport type for integrated server: " ++ "not-a-real-transport" ++
        ". Must be one of: " ++ "sse, http-streaming" :=
  ⟨by decide,
    (c4_invalid_transport "not-a-real-transport"
      { mcp_transport := TransportArg.ofString "not-a-real-transport" } initState
      (by decide) rfl).1,
    (c4_invalid_transport "not-a-real-transport"
      { mcp_transport := TransportArg.ofString "not-a-real-transport" } initState
      (by decide) rfl).2⟩

/-- Claim C8: after a successful WebServerFactory.create, a GET request on
"/health" is answered with status code 200 and a body whose status field is
"healthy" and whose optional fields are all absent, and handling the request
leaves the state unchanged (the handler is a pure constant response). -/
theorem c8_health_endpoint (s s1 : SysState) (app : WebApp)
    (h : WebServerFactory.create s = (Except.ok app, s1)) (s2 : SysState) :
    WebApp.handleGet app "/health" s2 =
      some ((200,
        { status := "healthy", timestamp := none, version := none,
          uptime_seconds := none, checks := none }), s2) := by
  have hr : app.routes = [("/health", RouteHandler.health_check)] := by
    obtain ⟨nid, st, mcp, web, intg, ev⟩ := s
    cases web with
    | some a => simp [WebServerFactory.create] at h
    | none =>
      cases mcp with
      | none => simp [WebServerFactory.create, MCPServerFactory.lifespan] at h
      | some m =>
        simp [WebServerFactory.create, MCPServerFactory.lifespan] at h
        rw [← h.1]
  simp [WebApp.handleGet, hr, runHandler, health_check]

/-- Claim C8 witness: the health response on the concretely created web
application. -/
theorem c8_witness :
    WebServerFactory.create stateWithMCP = (Except.ok webApp1, stateWithBoth) ∧
    WebApp.handleGet webApp1 "/health" initState =
      some ((200,
        { status := "healthy", timestamp := none, version := none,
          uptime_seconds := none, checks := none }), initState) :=
  ⟨rfl, c8_health_endpoint stateWithMCP stateWithBoth webApp1 rfl initState⟩

/-- Claim C9: whenever the transport argument normalizes to an enum member,
IntegratedServerFactory.create succeeds and performs exactly one mount, so the
trailing post-normalization raise of the invalid-transport ValueError in the
branch dispatch is unreachable. -/
theorem c9_trailing_raise_unreachable (kwargs : IntegratedServerKwargs)
    (t : MCPTransportType) (s : SysState)
    (h : normalizeTransport kwargs.mcp_transport = Except.ok t) :
    (∃ app : WebApp, (IntegratedServerFactory.create kwargs s).1 = Except.ok app) ∧
    countMounts (IntegratedServerFactory.create kwargs s).2.events =
      countMounts s.events + 1 := by
  obtain ⟨app, h1, _, _, _, _, h6⟩ := create_normalized_ok kwargs t s h
  exact ⟨⟨app, h1⟩, h6⟩

/-- Claim C9 witness: the success and single mount at the initial state for an
enum transport argument. -/
theorem c9_witness :
    normalizeTransport (TransportArg.ofEnum MCPTransportType.HTTP_STREAMING) =
      Except.ok MCPTransportType.HTTP_STREAMING ∧
    (∃ app : WebApp,
      (IntegratedServerFactory.create
        { mcp_transport := TransportArg.ofEnum MCPTransportType.HTTP_STREAMING }
        initState).1 = Except.ok app) ∧
    countMounts (IntegratedServerFactory.create
        { mcp_transport := TransportArg.ofEnum MCPTransportType.HTTP_STREAMING }
        initState).2.events =
      countMounts initState.events + 1 :=
  ⟨rfl, c9_trailing_raise_unreachable
    { mcp_transport := TransportArg.ofEnum MCPTransportType.HTTP_STREAMING }
    MCPTransportType.HTTP_STREAMING initState rfl⟩

/-- Claim C10: the CLI integrated-mode entry point always hands the fixed mount
path "/mcp" to the composition provider, so for every transport choice,
including SSE, the one mount this call performs is at "/mcp" and never at the
"/sse" entry of the default table. -/
theorem c10_cli_mounts_at_mcp (st : TSettings) (config : ServerConfig) (s : SysState) :
    (run_integrated_server (some st) config s).1 = Except.ok () ∧
    (run_integrated_server (some st) config s).2.events.getLast? =
      some (FactoryEvent.mounted "/mcp"
        (adapterFor config.transport (mcpIdAfterEnsure s))) ∧
    MCPAdapter.transportOf (adapterFor config.transport (mcpIdAfterEnsure s)) =
      config.transport ∧
    countMounts (run_integrated_server (some st) config s).2.events =
      countMounts s.events + 1 := by
  have hn : normalizeTransport (TransportArg.ofString config.transport.value) =
      Except.ok config.transport := by
    simp [normalizeTransport, ofString_value]
  obtain ⟨app, h1, _, _, _, h5, h6⟩ := create_normalized_ok
    { token := st.get_api_token
      mcp_transport := TransportArg.ofString config.transport.value
      mcp_mount_path := some "/mcp" } config.transport s hn
  refine ⟨?_, ?_, transportOf_adapterFor config.transport (mcpIdAfterEnsure s), ?_⟩ <;>
    simp [run_integrated_server, h1, h5, h6, resolveMountPath] at h5 h6 ⊢
